import Mathlib

/-!
Shallow embedding of the pawapay Python SDK (src/pawapay) in Lean 4.

Python runtime values exchanged with the provider are modelled by the
inductive `Json` below, with Python `None` represented as `Json.null`.
Python exceptions are modelled by the inductive `PyErr`; a function that can
raise returns `Except PyErr α`.  The HTTP wire is modelled by a stream of
per-attempt outcomes (`HttpOutcome`), and the urllib3 `Retry` machinery that
`PawaPayClient.__init__` configures (`total=config.max_retries,
backoff_factor=1, status_forcelist=[429,500,502,503,504]`) is embedded as the
explicit loop `retryLoop`.  Nondeterministic inputs of the code (`uuid.uuid4`,
`datetime.utcnow`) are passed in as parameters; the cryptographic primitives
(`hashlib.sha256(...).hexdigest()`, `hmac.new(...).hexdigest()`) and
`datetime.fromisoformat` are parameters as well, since no claim depends on
their internals, only on which inputs they are applied to.
-/

namespace PawaPay

/-- Model of a Python/JSON runtime value; `Json.null` doubles as Python `None`. -/
inductive Json where
  | null : Json
  | bool (b : Bool) : Json
  | num (n : Int) : Json
  | str (s : String) : Json
  | arr (xs : List Json) : Json
  | obj (kvs : List (String × Json)) : Json

namespace Json

/-- Python truthiness of a value: `None`, `False`, `0`, `""`, `[]`, `{}` are falsy. -/
def truthy : Json → Bool
  | .null => false
  | .bool b => b
  | .num n => n != 0
  | .str s => s ≠ ""
  | .arr xs => !xs.isEmpty
  | .obj kvs => !kvs.isEmpty

end Json

/-- Binding of key `k` in a Python dict modelled as an association list. -/
def jget : List (String × Json) → String → Option Json
  | [], _ => none
  | (k', v) :: kvs, k => if k' = k then some v else jget kvs k

/-- Python dict assignment `d[k] = v`: overwrite in place if the key exists,
otherwise append (insertion order preserved, as in CPython dicts). -/
def jset : List (String × Json) → String → Json → List (String × Json)
  | [], k, v => [(k, v)]
  | (k', v') :: kvs, k, v =>
    if k' = k then (k, v) :: kvs else (k', v') :: jset kvs k v

/-- Python `d.get(k)` with `None` for a missing key. -/
def pyGet (kvs : List (String × Json)) (k : String) : Json :=
  (jget kvs k).getD .null

/-- Python `d.get(k, default)`. -/
def pyGetD (kvs : List (String × Json)) (k : String) (default : Json) : Json :=
  (jget kvs k).getD default

/-- Python `a or b`: `a` if truthy, else `b`. -/
def pyOr (a b : Json) : Json :=
  if a.truthy then a else b

/-- Python `str(x)` for the values that reach f-strings in client.py. -/
def pyStr : Json → String
  | .null => "None"
  | .bool true => "True"
  | .bool false => "False"
  | .num n => toString n
  | .str s => s
  | .arr _ => "[...]"
  | .obj _ => "\x7b...\x7d"

/-- Python exceptions raised by the SDK code paths the claims touch.
`valueError` is builtin `ValueError` with its message (client.py:180,234);
`invalidStatusValue` is the `ValueError` raised by `TransactionStatus(x)` when
`x` is not a member value (models.py:140); the `pawaPay*` constructors mirror
exceptions.py, where `PawaPayAPIException` subclasses `PawaPayException`. -/
inductive PyErr where
  | keyError (k : String) : PyErr
  | indexError : PyErr
  | attributeError (attr : String) : PyErr
  | typeError (msg : String) : PyErr
  | valueError (msg : String) : PyErr
  | invalidStatusValue (v : Json) : PyErr
  | pawaPayException (message : String) : PyErr
  | pawaPayAPIException (message : String) (statusCode : Nat) (errorCode : Json)
      (details : Json) : PyErr

/-- config.py `PawaPayConfig` (fields the client reads). -/
structure PawaPayConfig where
  api_token : String
  base_url : String
  environment : String := "sandbox"
  callback_url : Option String := none
  callback_secret : Option String := none
  enable_signed_requests : Bool := false
  private_key_path : Option String := none
  public_key_path : Option String := none
  timeout : Nat := 30
  max_retries : Nat := 3
deriving DecidableEq, Repr

/-- models.py `TransactionStatus` enumeration. -/
inductive TransactionStatus where
  | ACCEPTED | ENQUEUED | COMPLETED | SUBMITTED | FAILED | REJECTED | DUPLICATE_IGNORED
deriving DecidableEq, Repr

/-- Python `TransactionStatus(s)` enum lookup by value: `some` member on a
known value, `none` when the lookup would raise `ValueError`. -/
def TransactionStatus.ofValue? (s : String) : Option TransactionStatus :=
  if s = "ACCEPTED" then some .ACCEPTED
  else if s = "ENQUEUED" then some .ENQUEUED
  else if s = "COMPLETED" then some .COMPLETED
  else if s = "SUBMITTED" then some .SUBMITTED
  else if s = "FAILED" then some .FAILED
  else if s = "REJECTED" then some .REJECTED
  else if s = "DUPLICATE_IGNORED" then some .DUPLICATE_IGNORED
  else none

/-- The member values of `TransactionStatus`, as listed in models.py. -/
def knownStatusValues : List String :=
  ["ACCEPTED", "ENQUEUED", "SUBMITTED", "COMPLETED", "FAILED", "REJECTED", "DUPLICATE_IGNORED"]

/-- models.py `Payer` (type + address dict). -/
structure Payer where
  type : String
  address : List (String × Json)

/-- models.py `Payer.to_dict`. -/
def Payer.to_dict (p : Payer) : Json :=
  .obj [("type", .str p.type), ("address", .obj p.address)]

/-- models.py `Recipient` (type + bare phone-number value). -/
structure Recipient where
  type : String
  value : String

/-- models.py `Recipient.to_dict`: wraps the value in an address object. -/
def Recipient.to_dict (r : Recipient) : Json :=
  .obj [("type", .str r.type), ("address", .obj [("value", .str r.value)])]

/-- models.py `DepositRequest`.  `correspondent` is kept as a runtime value
because `request_deposit` may store the raw predicted value there. -/
structure DepositRequest where
  deposit_id : String
  amount : String
  currency : String
  correspondent : Json
  payer : Payer
  customer_timestamp : String
  statement_description : Option String := none

/-- models.py `DepositRequest.to_dict` (statementDescription added only when truthy). -/
def DepositRequest.to_dict (r : DepositRequest) : List (String × Json) :=
  [("depositId", .str r.deposit_id),
   ("amount", .str r.amount),
   ("currency", .str r.currency),
   ("correspondent", r.correspondent),
   ("payer", r.payer.to_dict),
   ("customerTimestamp", .str r.customer_timestamp)] ++
  (match r.statement_description with
   | some sd => if sd ≠ "" then [("statementDescription", .str sd)] else []
   | none => [])

/-- models.py `PayoutRequest`. -/
structure PayoutRequest where
  payout_id : String
  amount : String
  country : String
  currency : String
  correspondent : Json
  recipient : Recipient
  customer_timestamp : String
  statement_description : Option String := none

/-- models.py `PayoutRequest.to_dict`. -/
def PayoutRequest.to_dict (r : PayoutRequest) : List (String × Json) :=
  [("payoutId", .str r.payout_id),
   ("amount", .str r.amount),
   ("country", .str r.country),
   ("currency", .str r.currency),
   ("correspondent", r.correspondent),
   ("recipient", r.recipient.to_dict),
   ("customerTimestamp", .str r.customer_timestamp)] ++
  (match r.statement_description with
   | some sd => if sd ≠ "" then [("statementDescription", .str sd)] else []
   | none => [])

/-- Abstract `datetime` value: `datetime.fromisoformat` is passed in as a
parameter, so only the parse input matters to the claims. -/
structure PyDateTime where
  iso : String
deriving DecidableEq, Repr

/-- models.py `TransactionResponse` dataclass.  Field types are `Json`
because CPython does not enforce the annotations. -/
structure TransactionResponse where
  transaction_id : Json
  status : TransactionStatus
  amount : Json
  currency : Json
  correspondent : Json
  created : PyDateTime
  failure_reason : Json

/-- models.py `TransactionResponse.from_dict`, with keyword arguments
evaluated left to right as CPython does, so the first failing field raises.
`fromiso` stands for `datetime.fromisoformat`, applied after
`.replace('Z', '+00:00')`. -/
def TransactionResponse.from_dict (fromiso : String → Option PyDateTime)
    (data : List (String × Json)) : Except PyErr TransactionResponse := do
  let transaction_id := pyOr (pyGet data "depositId") (pyGet data "payoutId")
  let statusRaw ←
    match jget data "status" with
    | some v => pure v
    | none => throw (.keyError "status")
  let status ←
    match statusRaw with
    | .str s =>
      match TransactionStatus.ofValue? s with
      | some st => pure st
      | none => throw (.invalidStatusValue statusRaw)
    | v => throw (.invalidStatusValue v)
  let amount :=
    match jget data "amount" with
    | some v => v
    | none => pyGet data "depositedAmount"
  let currency ←
    match jget data "currency" with
    | some v => pure v
    | none => throw (.keyError "currency")
  let correspondent ←
    match jget data "correspondent" with
    | some v => pure v
    | none => throw (.keyError "correspondent")
  let createdRaw ←
    match jget data "created" with
    | some v => pure v
    | none => throw (.keyError "created")
  let createdStr ←
    match createdRaw with
    | .str s => pure s
    | _ => throw (.attributeError "replace")
  let created ←
    match fromiso (createdStr.replace "Z" "+00:00") with
    | some dt => pure dt
    | none => throw (.valueError "Invalid isoformat string")
  let failure_reason := pyGet data "failureReason"
  pure { transaction_id, status, amount, currency, correspondent, created, failure_reason }

/-- models.py `DepositResponse` dataclass. -/
structure DepositResponse extends TransactionResponse where
  deposit_id : Json
  payer : Json

/-- models.py `DepositResponse.from_dict`: a `.get` on a non-dict raises
`AttributeError`, so the argument is checked to be an object first. -/
def DepositResponse.from_dict (fromiso : String → Option PyDateTime)
    (j : Json) : Except PyErr DepositResponse := do
  let data ←
    match j with
    | .obj kvs => pure kvs
    | _ => throw (.attributeError "get")
  let base ← TransactionResponse.from_dict fromiso data
  let deposit_id ←
    match jget data "depositId" with
    | some v => pure v
    | none => throw (.keyError "depositId")
  let payer := pyGetD data "payer" (.obj [])
  pure { base with deposit_id, payer }

/-- models.py `PayoutResponse` dataclass. -/
structure PayoutResponse extends TransactionResponse where
  payout_id : Json
  recipient : Json

/-- models.py `PayoutResponse.from_dict`. -/
def PayoutResponse.from_dict (fromiso : String → Option PyDateTime)
    (j : Json) : Except PyErr PayoutResponse := do
  let data ←
    match j with
    | .obj kvs => pure kvs
    | _ => throw (.attributeError "get")
  let base ← TransactionResponse.from_dict fromiso data
  let payout_id ←
    match jget data "payoutId" with
    | some v => pure v
    | none => throw (.keyError "payoutId")
  let recipient := pyGetD data "recipient" (.obj [])
  pure { base with payout_id, recipient }

/-- models.py `PawaPayError` dataclass. -/
structure PawaPayError where
  error_code : Json
  error_message : Json
  details : Json

/-- models.py `PawaPayError.from_dict`. -/
def PawaPayError.from_dict (data : List (String × Json)) : PawaPayError :=
  { error_code := pyGetD data "errorCode" (.str "UNKNOWN")
    error_message := pyGetD data "errorMessage" (.str "Unknown error")
    details := pyGet data "details" }


/-! ## Serialization: `json.dumps` with its default separators -/

mutual

/-- `json.dumps` on the values the client sends (string escaping elided:
the bodies built by client.py contain plain keys and caller strings). -/
def dumps : Json → String
  | .null => "null"
  | .bool true => "true"
  | .bool false => "false"
  | .num n => toString n
  | .str s => "\"" ++ s ++ "\""
  | .arr xs => "[" ++ dumpsArr xs ++ "]"
  | .obj kvs => "\x7b" ++ dumpsObj kvs ++ "\x7d"

/-- Array elements joined by `", "`. -/
def dumpsArr : List Json → String
  | [] => ""
  | [x] => dumps x
  | x :: xs => dumps x ++ ", " ++ dumpsArr xs

/-- Object entries `"k": v` joined by `", "`. -/
def dumpsObj : List (String × Json) → String
  | [] => ""
  | [(k, v)] => "\"" ++ k ++ "\": " ++ dumps v
  | (k, v) :: kvs => "\"" ++ k ++ "\": " ++ dumps v ++ ", " ++ dumpsObj kvs

end

/-! ## Transport: requests.Session + urllib3 Retry, client.py lines 36-96

`PawaPayClient.__init__` mounts an `HTTPAdapter` with
`Retry(total=config.max_retries, backoff_factor=1,
status_forcelist=[429, 500, 502, 503, 504])`, so one `session.request` call
performs up to `1 + max_retries` wire attempts, re-sending the same prepared
body and headers each time.  The wire is modelled as `outcomes : Nat →
HttpOutcome` giving the result of each successive attempt. -/

/-- One wire attempt: an HTTP response (with parsed JSON content, `none`
meaning an empty body), or a connection-level failure
(`requests.exceptions.RequestException`). -/
inductive HttpOutcome where
  | resp (status : Nat) (content : Option Json) : HttpOutcome
  | netFail (msg : String) : HttpOutcome

/-- Final outcome of the adapter-level retry loop. -/
inductive RetryResult where
  | response (status : Nat) (content : Option Json) : RetryResult
  | exhaustedStatus : RetryResult
  | connError (msg : String) : RetryResult

/-- client.py:40 `status_forcelist=[429, 500, 502, 503, 504]`. -/
def statusForcelist : List Nat := [429, 500, 502, 503, 504]

/-- urllib3 1.26 `Retry.DEFAULT_ALLOWED_METHODS` (the client leaves
`allowed_methods` at its default): only these idempotent methods are
status-retried; `is_retry` checks `_is_method_retryable(method)` before
consulting `status_forcelist`, so POST is never retried on a status. -/
def allowedMethods : List String := ["HEAD", "GET", "PUT", "DELETE", "OPTIONS", "TRACE"]

/-- client.py:83 `if response.status_code in [200, 201, 202]`. -/
def successStatuses : List Nat := [200, 201, 202]

/-- urllib3 sleep before retry number `k` (1-based) with `backoff_factor=1`:
no sleep before the first retry, then `backoff_factor * 2^(k-1)` capped at
`BACKOFF_MAX = 120` seconds. -/
def backoffTime (k : Nat) : Nat :=
  if k ≤ 1 then 0 else min 120 (2 ^ (k - 1))

/-- urllib3 `Retry` loop: attempt `i` of the wire, `retriesLeft` retries
remaining.  A response is retried only when `is_retry` holds — the request
method is in `allowed_methods` AND the status is in the forcelist — each such
retry consuming from `total` and raising `MaxRetryError` when none remain
(`raise_on_status` defaults to true); any other response is returned to the
adapter immediately.  A connection-level failure (the request never reached
the server) consumes a retry for every method, `total` covering connect
errors.  Returns the final result and the number of wire attempts made. -/
def retryLoop (method : String) (outcomes : Nat → HttpOutcome) :
    Nat → Nat → RetryResult × Nat
  | i, 0 =>
    match outcomes i with
    | .netFail msg => (.connError msg, 1)
    | .resp s c =>
      if method ∈ allowedMethods ∧ s ∈ statusForcelist then (.exhaustedStatus, 1)
      else (.response s c, 1)
  | i, rl + 1 =>
    match outcomes i with
    | .netFail _ =>
      let p := retryLoop method outcomes (i + 1) rl
      (p.1, p.2 + 1)
    | .resp s c =>
      if method ∈ allowedMethods ∧ s ∈ statusForcelist then
        let p := retryLoop method outcomes (i + 1) rl
        (p.1, p.2 + 1)
      else (.response s c, 1)

/-- The prepared HTTP request that every attempt of one `session.request`
call re-sends. -/
structure SentRequest where
  method : String
  url : String
  body : Option String
  headers : List (String × String)

/-- Observable record of one `_make_request` call: its Python-level result,
the per-attempt trace of requests put on the wire, and the backoff sleeps
taken between attempts. -/
structure CallLog where
  result : Except PyErr Json
  sent : List SentRequest
  sleeps : List Nat

/-- client.py:57 `_calculate_signature`: hex SHA-256 of the body string. -/
def _calculate_signature (sha256hex : String → String) (body : String) : String :=
  sha256hex body

/-- client.py:61-96 `_make_request`.  `data` is serialized once
(`json.dumps(data) if data else None`: a falsy dict serializes to `None`),
the Content-Digest header is attached when signing is enabled and a body is
present, the session sends with adapter-level retries, and the final response
is mapped: 200/201/202 → parsed JSON (or `{}` on empty content), other
statuses → `PawaPayAPIException` built from `PawaPayError.from_dict`,
connection-level failures → `PawaPayException("Request failed: ...")`. -/
def _make_request (cfg : PawaPayConfig) (sha256hex : String → String)
    (method endpoint : String) (data : Option Json)
    (outcomes : Nat → HttpOutcome) : CallLog :=
  let url := cfg.base_url ++ endpoint
  let json_data : Option String :=
    match data with
    | some d => if d.truthy then some (dumps d) else none
    | none => none
  let headers : List (String × String) :=
    match json_data with
    | some s =>
      if cfg.enable_signed_requests then
        [("Content-Digest", "sha-256=:" ++ _calculate_signature sha256hex s ++ ":")]
      else []
    | none => []
  let rn := retryLoop method outcomes 0 cfg.max_retries
  let result : Except PyErr Json :=
    match rn.1 with
    | .response s c =>
      if s ∈ successStatuses then
        .ok (c.getD (.obj []))
      else
        match c with
        | some (.obj kvs) =>
          let error := PawaPayError.from_dict kvs
          .error (.pawaPayAPIException ("API Error: " ++ pyStr error.error_message) s
            error.error_code (pyOr error.details (.obj [])))
        | some _ => .error (.attributeError "get")
        | none =>
          let error := PawaPayError.from_dict []
          .error (.pawaPayAPIException ("API Error: " ++ pyStr error.error_message) s
            error.error_code (pyOr error.details (.obj [])))
    | .exhaustedStatus => .error (.pawaPayException "Request failed: Max retries exceeded")
    | .connError msg => .error (.pawaPayException ("Request failed: " ++ msg))
  { result
    sent := List.replicate rn.2 { method, url, body := json_data, headers }
    sleeps := (List.range (rn.2 - 1)).map (fun j => backoffTime (j + 1)) }

/-! ## Client operations, client.py lines 130-296 -/

/-- Python `v == 'REJECTED'` on the value of `response_data.get('status')`. -/
def isRejectedValue : Json → Bool
  | .str s => s = "REJECTED"
  | _ => false

/-- client.py:130-140 `predict_correspondent`: POST the msisdn to the
prediction endpoint and return `response.get('correspondent')` (Python `None`
= `.null` when absent).  Only `PawaPayAPIException` is caught and turned into
`None`; every other exception — in particular the `PawaPayException` that
`_make_request` raises on a connection-level failure — propagates. -/
def predict_correspondent (cfg : PawaPayConfig) (sha256hex : String → String)
    (msisdn : String) (outcomes : Nat → HttpOutcome) : Except PyErr Json :=
  match (_make_request cfg sha256hex "POST" "/v1/predict-correspondent"
      (some (.obj [("msisdn", .str msisdn)])) outcomes).result with
  | .ok response =>
    match response with
    | .obj kvs => .ok (pyGet kvs "correspondent")
    | _ => .error (.attributeError "get")
  | .error (.pawaPayAPIException _ _ _ _) => .ok .null
  | .error e => .error e

/-- Correspondent resolution step shared by `request_deposit` and
`request_payout` (client.py:152-156 and 212-216): a falsy caller-supplied
correspondent triggers prediction, and a falsy prediction result raises
`PawaPayException("Could not predict correspondent for phone number")`. -/
def resolve_correspondent (cfg : PawaPayConfig) (sha256hex : String → String)
    (phone_number : String) (correspondent : Option String)
    (predictOutcomes : Nat → HttpOutcome) : Except PyErr Json :=
  let explicit : Json := match correspondent with | some c => .str c | none => .null
  if explicit.truthy then .ok explicit
  else
    match predict_correspondent cfg sha256hex phone_number predictOutcomes with
    | .ok j =>
      if j.truthy then .ok j
      else .error (.pawaPayException "Could not predict correspondent for phone number")
    | .error e => .error e

/-- Result of `request_deposit` together with the wire log of the POST
/deposits call (`none` when correspondent resolution failed before any
deposit request was sent). -/
structure DepositCall where
  result : Except PyErr DepositResponse
  depositLog : Option CallLog

/-- client.py:142-194 `request_deposit`.  `freshId` is the one
`uuid.uuid4()` drawn at line 160 and `nowIso` the `datetime.utcnow().isoformat()`
value.  After resolution, the `DepositRequest` is built, POSTed (with
adapter-level retries inside `_make_request`), a `REJECTED` business status
raises `ValueError` with the rejection code/message interpolated, and
otherwise the caller-supplied amount/currency/correspondent/payer are written
back into the response dict before `DepositResponse.from_dict`. -/
def request_deposit (cfg : PawaPayConfig) (sha256hex : String → String)
    (fromiso : String → Option PyDateTime) (freshId nowIso : String)
    (amount currency phone_number : String)
    (correspondent : Option String) (statement_description : Option String)
    (predictOutcomes depositOutcomes : Nat → HttpOutcome) : DepositCall :=
  match resolve_correspondent cfg sha256hex phone_number correspondent predictOutcomes with
  | .error e => { result := .error e, depositLog := none }
  | .ok corrJson =>
    let deposit_request : DepositRequest :=
      { deposit_id := freshId
        amount
        currency
        correspondent := corrJson
        payer := { type := "MSISDN", address := [("value", .str phone_number)] }
        customer_timestamp := nowIso ++ "Z"
        statement_description }
    let log := _make_request cfg sha256hex "POST" "/deposits"
      (some (.obj deposit_request.to_dict)) depositOutcomes
    let result : Except PyErr DepositResponse :=
      match log.result with
      | .error e => .error e
      | .ok response_data =>
        match response_data with
        | .obj kvs =>
          if isRejectedValue (pyGet kvs "status") then
            match pyGetD kvs "rejectionReason" (.obj []) with
            | .obj rkvs =>
              .error (.valueError ("Deposit was rejected." ++
                "Code: " ++ pyStr (pyGet rkvs "rejectionCode") ++ ", " ++
                "Message: " ++ pyStr (pyGet rkvs "rejectionMessage")))
            | _ => .error (.attributeError "get")
          else
            let kvs := jset kvs "amount" (.str amount)
            let kvs := jset kvs "currency" (.str currency)
            let kvs := jset kvs "correspondent" corrJson
            let kvs := jset kvs "payer"
              (Payer.to_dict { type := "MSISDN", address := [("value", .str phone_number)] })
            DepositResponse.from_dict fromiso (.obj kvs)
        | _ => .error (.attributeError "get")
    { result, depositLog := some log }

/-- Python `response_data[0]` on the parsed JSON value. -/
def pyIndexZero : Json → Except PyErr Json
  | .arr [] => .error .indexError
  | .arr (x :: _) => .ok x
  | .obj _ => .error (.keyError "0")
  | .str s => if s = "" then .error .indexError else .ok (.str (s.take 1))
  | _ => .error (.typeError "object is not subscriptable")

/-- client.py:196-199 `check_deposit_status`: GET the status list and parse
its element 0 with `DepositResponse.from_dict`. -/
def check_deposit_status (cfg : PawaPayConfig) (sha256hex : String → String)
    (fromiso : String → Option PyDateTime) (deposit_id : String)
    (outcomes : Nat → HttpOutcome) : Except PyErr DepositResponse := do
  let response_data ←
    (_make_request cfg sha256hex "GET" ("/deposits/" ++ deposit_id) none outcomes).result
  let first ← pyIndexZero response_data
  DepositResponse.from_dict fromiso first

/-- Result of `request_payout` together with the wire log of the POST
/payouts call. -/
structure PayoutCall where
  result : Except PyErr PayoutResponse
  payoutLog : Option CallLog

/-- client.py:201-248 `request_payout`, symmetric to `request_deposit` with a
country code, a `Recipient`, and the `"Payout was rejected."` message. -/
def request_payout (cfg : PawaPayConfig) (sha256hex : String → String)
    (fromiso : String → Option PyDateTime) (freshId nowIso : String)
    (amount currency country phone_number : String)
    (correspondent : Option String) (statement_description : Option String)
    (predictOutcomes payoutOutcomes : Nat → HttpOutcome) : PayoutCall :=
  match resolve_correspondent cfg sha256hex phone_number correspondent predictOutcomes with
  | .error e => { result := .error e, payoutLog := none }
  | .ok corrJson =>
    let payout_request : PayoutRequest :=
      { payout_id := freshId
        amount
        country
        currency
        correspondent := corrJson
        recipient := { type := "MSISDN", value := phone_number }
        customer_timestamp := nowIso ++ "Z"
        statement_description }
    let log := _make_request cfg sha256hex "POST" "/payouts"
      (some (.obj payout_request.to_dict)) payoutOutcomes
    let result : Except PyErr PayoutResponse :=
      match log.result with
      | .error e => .error e
      | .ok response_data =>
        match response_data with
        | .obj kvs =>
          if isRejectedValue (pyGet kvs "status") then
            match pyGetD kvs "rejectionReason" (.obj []) with
            | .obj rkvs =>
              .error (.valueError ("Payout was rejected." ++
                "Code: " ++ pyStr (pyGet rkvs "rejectionCode") ++ ", " ++
                "Message: " ++ pyStr (pyGet rkvs "rejectionMessage")))
            | _ => .error (.attributeError "get")
          else
            let kvs := jset kvs "amount" (.str amount)
            let kvs := jset kvs "currency" (.str currency)
            let kvs := jset kvs "correspondent" corrJson
            let kvs := jset kvs "recipient"
              (Recipient.to_dict { type := "MSISDN", value := phone_number })
            PayoutResponse.from_dict fromiso (.obj kvs)
        | _ => .error (.attributeError "get")
    { result, payoutLog := some log }

/-- client.py:250-253 `check_payout_status`: GET the status list and parse
its element 0 with `PayoutResponse.from_dict`. -/
def check_payout_status (cfg : PawaPayConfig) (sha256hex : String → String)
    (fromiso : String → Option PyDateTime) (payout_id : String)
    (outcomes : Nat → HttpOutcome) : Except PyErr PayoutResponse := do
  let response_data ←
    (_make_request cfg sha256hex "GET" ("/payouts/" ++ payout_id) none outcomes).result
  let first ← pyIndexZero response_data
  PayoutResponse.from_dict fromiso first

/-- client.py:264-275 `validate_callback`.  A falsy `callback_secret`
(`None` or `""`) returns `False` immediately; otherwise the provided
signature is compared against the hex HMAC-SHA256 of the payload under the
secret with `hmac.compare_digest`, whose value on two `str` arguments is
their equality (computed in constant time). -/
def validate_callback (cfg : PawaPayConfig)
    (hmacSha256hex : String → String → String)
    (payload signature : String) : Bool :=
  match cfg.callback_secret with
  | none => false
  | some secret =>
    if secret = "" then false
    else decide (signature = hmacSha256hex secret payload)

/-! ## Helper lemmas -/

/-- Enum lookup fails exactly on strings outside the member values. -/
theorem ofValue?_eq_none_iff (s : String) :
    TransactionStatus.ofValue? s = none ↔ s ∉ knownStatusValues := by
  unfold TransactionStatus.ofValue? knownStatusValues
  split_ifs with h1 h2 h3 h4 h5 h6 h7 <;> simp_all

/-- A response that `is_retry` rejects — the method outside the allowed set,
or the status outside the forcelist — ends the adapter retry loop on the
attempt that produced it. -/
theorem retryLoop_resp_pass {method : String} {outcomes : Nat → HttpOutcome}
    {i s : Nat} {c : Option Json} (h0 : outcomes i = .resp s c)
    (hng : ¬(method ∈ allowedMethods ∧ s ∈ statusForcelist)) (n : Nat) :
    retryLoop method outcomes i n = (.response s c, 1) := by
  cases n <;> simp [retryLoop, h0, hng]

/-- The retry loop makes at least one wire attempt. -/
theorem retryLoop_attempts_pos (method : String) (outcomes : Nat → HttpOutcome)
    (i n : Nat) : 1 ≤ (retryLoop method outcomes i n).2 := by
  induction n generalizing i with
  | zero =>
    cases h : outcomes i with
    | netFail msg => simp [retryLoop, h]
    | resp s c =>
      by_cases hg : method ∈ allowedMethods ∧ s ∈ statusForcelist <;>
        simp [retryLoop, h, hg]
  | succ n ih =>
    cases h : outcomes i with
    | netFail msg => simp [retryLoop, h]
    | resp s c =>
      by_cases hg : method ∈ allowedMethods ∧ s ∈ statusForcelist
      · simp [retryLoop, h, hg]
      · simp [retryLoop, h, hg]

/-- The retry loop makes at most `retriesLeft + 1` wire attempts:
`max_retries` retries after the initial request. -/
theorem retryLoop_attempts_le (method : String) (outcomes : Nat → HttpOutcome)
    (i n : Nat) : (retryLoop method outcomes i n).2 ≤ n + 1 := by
  induction n generalizing i with
  | zero =>
    cases h : outcomes i with
    | netFail msg => simp [retryLoop, h]
    | resp s c =>
      by_cases hg : method ∈ allowedMethods ∧ s ∈ statusForcelist <;>
        simp [retryLoop, h, hg]
  | succ n ih =>
    cases h : outcomes i with
    | netFail msg => simpa [retryLoop, h] using Nat.succ_le_succ (ih (i + 1))
    | resp s c =>
      by_cases hg : method ∈ allowedMethods ∧ s ∈ statusForcelist
      · simpa [retryLoop, h, hg] using Nat.succ_le_succ (ih (i + 1))
      · simp [retryLoop, h, hg]

/-- A transient first status on an allowed (idempotent) method consumes a
retry: with retries remaining, at least one further attempt follows. -/
theorem retryLoop_transient_retries {method : String} {outcomes : Nat → HttpOutcome}
    {i s : Nat} {c : Option Json} (h0 : outcomes i = .resp s c)
    (hm : method ∈ allowedMethods) (hs : s ∈ statusForcelist)
    (n : Nat) : 2 ≤ (retryLoop method outcomes i (n + 1)).2 := by
  have h1 := retryLoop_attempts_pos method outcomes (i + 1) n
  simp [retryLoop, h0, hm, hs]
  omega

/-- For an allowed method, a wire that answers a transient status forever
exhausts all retries. -/
theorem retryLoop_transient_exhausts {method : String} {s : Nat} {c : Option Json}
    (hm : method ∈ allowedMethods) (hs : s ∈ statusForcelist) (i n : Nat) :
    retryLoop method (fun _ => .resp s c) i n = (.exhaustedStatus, n + 1) := by
  induction n generalizing i with
  | zero => simp [retryLoop, hm, hs]
  | succ n ih => simp [retryLoop, hm, hs, ih]

/-- For a method outside the allowed set, a forcelist status is returned on
the very first attempt: `is_retry` is false before the forcelist is even
consulted. -/
theorem retryLoop_post_not_status_retried {method : String} {outcomes : Nat → HttpOutcome}
    {i s : Nat} {c : Option Json} (h0 : outcomes i = .resp s c)
    (hm : method ∉ allowedMethods) (n : Nat) :
    retryLoop method outcomes i n = (.response s c, 1) :=
  retryLoop_resp_pass h0 (fun hg => hm hg.1) n

/-- A wire that fails at the connection level forever exhausts all retries
(connect errors are retried for every method). -/
theorem retryLoop_netFail_exhausts (method msg : String) (i n : Nat) :
    retryLoop method (fun _ => .netFail msg) i n = (.connError msg, n + 1) := by
  induction n generalizing i with
  | zero => simp [retryLoop]
  | succ n ih => simp [retryLoop, ih]

/-- The success statuses 200/201/202 are not in the transient forcelist. -/
theorem success_not_forcelist {s : Nat} (hs : s ∈ successStatuses) :
    s ∉ statusForcelist := by
  simp only [successStatuses, List.mem_cons, List.not_mem_nil, or_false] at hs
  rcases hs with rfl | rfl | rfl <;> decide

/-- The forcelist statuses are all non-2xx. -/
theorem forcelist_not_success {s : Nat} (hs : s ∈ statusForcelist) :
    s ∉ successStatuses := by
  simp only [statusForcelist, List.mem_cons, List.not_mem_nil, or_false] at hs
  rcases hs with rfl | rfl | rfl | rfl | rfl <;> decide

/-- A first-attempt 2xx response is returned as parsed JSON content. -/
theorem make_request_ok {cfg : PawaPayConfig} {sha256hex : String → String}
    {method endpoint : String} {data : Option Json} {outcomes : Nat → HttpOutcome}
    {s : Nat} {j : Json} (h0 : outcomes 0 = .resp s (some j)) (hs : s ∈ successStatuses) :
    (_make_request cfg sha256hex method endpoint data outcomes).result = .ok j := by
  unfold _make_request
  rw [retryLoop_resp_pass h0 (fun hg => success_not_forcelist hs hg.2)]
  simp [hs]

/-- Looking up the key just assigned. -/
theorem jget_jset_same (kvs : List (String × Json)) (k : String) (v : Json) :
    jget (jset kvs k v) k = some v := by
  induction kvs with
  | nil => simp [jget, jset]
  | cons q qs ih =>
    obtain ⟨qk, qv⟩ := q
    by_cases hq : qk = k
    · simp [jget, jset, hq]
    · simp [jget, jset, hq, ih]

/-- Assigning one key leaves the other keys' lookups unchanged. -/
theorem jget_jset_other (kvs : List (String × Json)) (k k' : String) (v : Json)
    (hne : k' ≠ k) : jget (jset kvs k v) k' = jget kvs k' := by
  have hkk' : k ≠ k' := Ne.symm hne
  induction kvs with
  | nil => simp [jget, jset, hkk']
  | cons q qs ih =>
    obtain ⟨qk, qv⟩ := q
    by_cases hq : qk = k
    · simp [jget, jset, hq, hkk']
    · by_cases hq' : qk = k' <;> simp [jget, jset, hq, hq', hne, ih]

/-- A key found in the front list is found in the concatenation. -/
theorem jget_append_left {kvs : List (String × Json)} (rest : List (String × Json))
    {k : String} {v : Json} (h : jget kvs k = some v) :
    jget (kvs ++ rest) k = some v := by
  induction kvs with
  | nil => simp [jget] at h
  | cons q qs ih =>
    obtain ⟨qk, qv⟩ := q
    by_cases hq : qk = k
    · simp [jget, hq] at h ⊢
      exact h
    · simp [jget, hq] at h ⊢
      exact ih h

/-- Binding after a raise propagates the raise. -/
theorem bind_throw {α β : Type} (e : PyErr) (f : α → Except PyErr β) :
    (throw e >>= f : Except PyErr β) = .error e := rfl

/-- Binding after an error propagates the error. -/
theorem error_bind {α β : Type} (e : PyErr) (f : α → Except PyErr β) :
    (Except.error e >>= f : Except PyErr β) = .error e := rfl

/-- Mapping over a raise propagates the raise. -/
theorem map_throw {α β : Type} (e : PyErr) (f : α → β) :
    (f <$> (throw e : Except PyErr α)) = (.error e : Except PyErr β) := rfl

/-- A first-attempt non-transient, non-2xx response with a JSON-object error
body yields the `PawaPayAPIException` built from `PawaPayError.from_dict`. -/
theorem make_request_api_error {cfg : PawaPayConfig} {sha256hex : String → String}
    {method endpoint : String} {data : Option Json} {outcomes : Nat → HttpOutcome}
    {s : Nat} {kvs : List (String × Json)}
    (h0 : outcomes 0 = .resp s (some (.obj kvs)))
    (hng : ¬(method ∈ allowedMethods ∧ s ∈ statusForcelist))
    (hns : s ∉ successStatuses) :
    (_make_request cfg sha256hex method endpoint data outcomes).result
      = .error (.pawaPayAPIException
          ("API Error: " ++ pyStr (PawaPayError.from_dict kvs).error_message) s
          (PawaPayError.from_dict kvs).error_code
          (pyOr (PawaPayError.from_dict kvs).details (.obj []))) := by
  unfold _make_request
  rw [retryLoop_resp_pass h0 hng]
  simp [hns]

/-- Any non-2xx prediction response — prediction is a POST, which urllib3
never status-retries — is swallowed by the `except PawaPayAPIException`
handler: `predict_correspondent` returns `None`. -/
theorem predict_soft_null {cfg : PawaPayConfig} {sha256hex : String → String}
    {msisdn : String} {outcomes : Nat → HttpOutcome} {s : Nat}
    {kvs : List (String × Json)}
    (h0 : outcomes 0 = .resp s (some (.obj kvs)))
    (hns : s ∉ successStatuses) :
    predict_correspondent cfg sha256hex msisdn outcomes = .ok .null := by
  unfold predict_correspondent
  rw [make_request_api_error h0 (fun hg => absurd hg.1 (by decide)) hns]

/-- A 2xx prediction response yields `response.get('correspondent')`. -/
theorem predict_ok_get {cfg : PawaPayConfig} {sha256hex : String → String}
    {msisdn : String} {outcomes : Nat → HttpOutcome} {s : Nat}
    {kvs : List (String × Json)}
    (h0 : outcomes 0 = .resp s (some (.obj kvs))) (hs : s ∈ successStatuses) :
    predict_correspondent cfg sha256hex msisdn outcomes = .ok (pyGet kvs "correspondent") := by
  unfold predict_correspondent
  rw [make_request_ok h0 hs]

/-! ## Concrete fixtures for witnesses and counterexamples -/

/-- A concrete configuration (defaults: unsigned, 3 retries, no secret). -/
def cfgW : PawaPayConfig := { api_token := "token", base_url := "https://api.example" }

/-- A concrete stand-in for `hashlib.sha256(...).hexdigest()`. -/
def shaW : String → String := fun s => "sha256-" ++ s

/-- A concrete stand-in for hex HMAC-SHA256. -/
def hmacW : String → String → String := fun key p => "hmac-" ++ key ++ "-" ++ p

/-- A concrete stand-in for `datetime.fromisoformat` that accepts every string. -/
def isoW : String → Option PyDateTime := fun s => some { iso := s }

/-! ## Claim theorems -/

/-- C2: `validate_callback` returns true exactly when the provided signature
equals the hex HMAC-SHA256 of the payload under the configured callback
secret (the comparison is done by `hmac.compare_digest`, which on two `str`
arguments computes their equality in constant time), and it returns false —
it is a total function, it cannot raise — for every input whenever no
callback secret is configured (secret absent or empty). -/
theorem validate_callback_iff_hmac_matches (cfg : PawaPayConfig)
    (hmacSha256hex : String → String → String) (payload signature : String) :
    (validate_callback cfg hmacSha256hex payload signature = true ↔
      ∃ secret, cfg.callback_secret = some secret ∧ secret ≠ "" ∧
        signature = hmacSha256hex secret payload) ∧
    ((cfg.callback_secret = none ∨ cfg.callback_secret = some "") →
      validate_callback cfg hmacSha256hex payload signature = false) := by
  unfold validate_callback
  rcases h : cfg.callback_secret with _ | secret
  · simp
  · by_cases hs : secret = "" <;> simp [hs]

/-- Witness for C2 at a concrete secret, payload and signature. -/
theorem validate_callback_iff_hmac_matches_witness :
    validate_callback { cfgW with callback_secret := some "key" } hmacW
      "payload" "hmac-key-payload" = true ∧
    validate_callback cfgW hmacW "payload" "hmac-key-payload" = false :=
  ⟨(validate_callback_iff_hmac_matches _ hmacW "payload" "hmac-key-payload").1.mpr
      ⟨"key", rfl, by decide, rfl⟩,
   (validate_callback_iff_hmac_matches cfgW hmacW "payload" "hmac-key-payload").2 (Or.inl rfl)⟩

/-- C9: `check_deposit_status` / `check_payout_status` fetch the provider's
status-history list and map only its first element, parsing it with the very
same `DepositResponse.from_dict` / `PayoutResponse.from_dict` that
`request_deposit` / `request_payout` use; the tail of the list never
influences the result. -/
theorem status_check_maps_first_element (cfg : PawaPayConfig)
    (sha256hex : String → String) (fromiso : String → Option PyDateTime)
    (depId payId : String) (x : Json) (rest rest2 : List Json)
    (outcomesD outcomesP : Nat → HttpOutcome)
    (hD : outcomesD 0 = .resp 200 (some (.arr (x :: rest))))
    (hP : outcomesP 0 = .resp 200 (some (.arr (x :: rest2)))) :
    check_deposit_status cfg sha256hex fromiso depId outcomesD
      = DepositResponse.from_dict fromiso x ∧
    check_payout_status cfg sha256hex fromiso payId outcomesP
      = PayoutResponse.from_dict fromiso x := by
  unfold check_deposit_status check_payout_status
  rw [make_request_ok hD (by decide), make_request_ok hP (by decide)]
  exact ⟨rfl, rfl⟩

/-- Witness for C9: a one-element status list maps through `from_dict`. -/
theorem status_check_maps_first_element_witness :
    check_deposit_status cfgW shaW isoW "d1"
        (fun _ => .resp 200 (some (.arr [.obj [("status", .str "COMPLETED")]])))
      = DepositResponse.from_dict isoW (.obj [("status", .str "COMPLETED")]) ∧
    check_payout_status cfgW shaW isoW "p1"
        (fun _ => .resp 200 (some (.arr [.obj [("status", .str "COMPLETED")]])))
      = PayoutResponse.from_dict isoW (.obj [("status", .str "COMPLETED")]) :=
  status_check_maps_first_element cfgW shaW isoW "d1" "p1"
    (.obj [("status", .str "COMPLETED")]) [] [] _ _ rfl rfl

/-- Parsing a response dict whose status string is outside the enum stops at
the status field (keyword arguments evaluate left to right) with the enum
lookup `ValueError`. -/
theorem from_dict_unknown_status (fromiso : String → Option PyDateTime)
    {kvs : List (String × Json)} {sv : String}
    (hstatus : jget kvs "status" = some (.str sv))
    (hnone : TransactionStatus.ofValue? sv = none) :
    TransactionResponse.from_dict fromiso kvs = .error (.invalidStatusValue (.str sv)) := by
  unfold TransactionResponse.from_dict
  simp [hstatus, hnone, bind_throw, error_bind, map_throw]

/-- C5: a provider status string outside the known enum
(ACCEPTED, ENQUEUED, SUBMITTED, COMPLETED, FAILED, REJECTED,
DUPLICATE_IGNORED) makes the status-check calls raise the enum-lookup
`ValueError` (`'X' is not a valid TransactionStatus`) instead of returning a
response with a defaulted status. -/
theorem unknown_status_raises (cfg : PawaPayConfig) (sha256hex : String → String)
    (fromiso : String → Option PyDateTime) (depId payId sv : String)
    (kvs : List (String × Json)) (rest : List Json)
    (outcomesD outcomesP : Nat → HttpOutcome)
    (hsv : sv ∉ knownStatusValues)
    (hstatus : jget kvs "status" = some (.str sv))
    (hD : outcomesD 0 = .resp 200 (some (.arr (.obj kvs :: rest))))
    (hP : outcomesP 0 = .resp 200 (some (.arr (.obj kvs :: rest)))) :
    check_deposit_status cfg sha256hex fromiso depId outcomesD
      = .error (.invalidStatusValue (.str sv)) ∧
    check_payout_status cfg sha256hex fromiso payId outcomesP
      = .error (.invalidStatusValue (.str sv)) := by
  have hnone : TransactionStatus.ofValue? sv = none := (ofValue?_eq_none_iff sv).mpr hsv
  have hbase := from_dict_unknown_status fromiso hstatus hnone
  unfold check_deposit_status check_payout_status
  rw [make_request_ok hD (by decide), make_request_ok hP (by decide)]
  constructor
  · show DepositResponse.from_dict fromiso (.obj kvs) = _
    unfold DepositResponse.from_dict
    simp [hbase, bind_throw, error_bind, map_throw]
  · show PayoutResponse.from_dict fromiso (.obj kvs) = _
    unfold PayoutResponse.from_dict
    simp [hbase, bind_throw, error_bind, map_throw]

/-- Witness for C5 at the unknown status string `"PENDING"`. -/
theorem unknown_status_raises_witness :
    check_deposit_status cfgW shaW isoW "d1"
        (fun _ => .resp 200 (some (.arr [.obj [("status", .str "PENDING")]])))
      = .error (.invalidStatusValue (.str "PENDING")) ∧
    check_payout_status cfgW shaW isoW "p1"
        (fun _ => .resp 200 (some (.arr [.obj [("status", .str "PENDING")]])))
      = .error (.invalidStatusValue (.str "PENDING")) :=
  unknown_status_raises cfgW shaW isoW "d1" "p1" "PENDING"
    [("status", .str "PENDING")] [] _ _ (by decide) rfl rfl rfl

/-- C8: with request signing enabled, every wire attempt of a call that has a
(truthy) body carries the `Content-Digest` header whose value embeds the
SHA-256 hex digest of exactly the byte-serialized body that the attempt
sends; since the prepared request is re-sent unmodified on each adapter-level
retry, the header matches the sent bytes on every attempt. -/
theorem signed_request_digest_matches_body (cfg : PawaPayConfig)
    (sha256hex : String → String) (method endpoint : String) (d : Json)
    (outcomes : Nat → HttpOutcome)
    (hsig : cfg.enable_signed_requests = true) (hd : d.truthy = true) :
    ∀ r ∈ (_make_request cfg sha256hex method endpoint (some d) outcomes).sent,
      r.body = some (dumps d) ∧
      r.headers = [("Content-Digest", "sha-256=:" ++ sha256hex (dumps d) ++ ":")] := by
  intro r hr
  unfold _make_request at hr
  simp only [hd, if_true, hsig] at hr
  rw [List.eq_of_mem_replicate hr]
  exact ⟨rfl, rfl⟩

/-- The one request that the C8 witness call puts on the wire. -/
def sentW : SentRequest :=
  { method := "POST", url := cfgW.base_url ++ "/x",
    body := some (dumps (.obj [("a", .str "b")])),
    headers := [("Content-Digest", "sha-256=:" ++ shaW (dumps (.obj [("a", .str "b")])) ++ ":")] }

/-- Witness for C8 with a one-field body and the default transport: the
attempt actually sent carries the digest of exactly its own body. -/
theorem signed_request_digest_matches_body_witness :
    sentW.body = some (dumps (.obj [("a", .str "b")])) ∧
    sentW.headers
      = [("Content-Digest", "sha-256=:" ++ shaW (dumps (.obj [("a", .str "b")])) ++ ":")] :=
  signed_request_digest_matches_body { cfgW with enable_signed_requests := true } shaW
    "POST" "/x" (.obj [("a", .str "b")]) (fun _ => .resp 200 none) rfl rfl sentW
    (show sentW ∈ [sentW] from List.mem_singleton.mpr rfl)

/-- Counterexample to C4: the client's own POST calls are never
status-retried.  urllib3's `is_retry` consults `allowed_methods` (default:
HEAD/GET/PUT/DELETE/OPTIONS/TRACE) before `status_forcelist`, and the client
leaves that default in place, so a POST to /deposits answered 500 on every
attempt makes exactly one wire attempt — despite `max_retries = 3 > 0` — and
raises `PawaPayAPIException` immediately instead of retrying. -/
theorem post_forcelist_status_not_retried :
    0 < cfgW.max_retries ∧
    (_make_request cfgW shaW "POST" "/deposits"
        (some (.obj [("depositId", .str "d-1")]))
        (fun _ => .resp 500 (some (.obj [])))).sent.length = 1 ∧
    (_make_request cfgW shaW "POST" "/deposits"
        (some (.obj [("depositId", .str "d-1")]))
        (fun _ => .resp 500 (some (.obj [])))).result
      = .error (.pawaPayAPIException ("API Error: " ++ "Unknown error") 500
          (.str "UNKNOWN") (.obj [])) :=
  ⟨by decide, rfl, rfl⟩

/-- C4 amended: for calls whose method is in urllib3's default
`allowed_methods` (all of this client's GETs), a forcelist status
429/500/502/503/504 triggers retry with exponential backoff (no sleep before
the first retry, then `2^(k-1)` seconds capped at 120), total wire attempts
bounded by `1 + max_retries`, and any non-forcelist non-2xx status fails on
the single first attempt with `PawaPayAPIException`; for methods outside
that set — every POST the client makes — `is_retry` is false before the
forcelist is consulted, so even a forcelist status is answered on the first
attempt by the same `PawaPayAPIException`, with no retry. -/
theorem transport_retry_policy (cfg : PawaPayConfig) (sha256hex : String → String)
    (method endpoint : String) (data : Option Json) (outcomes : Nat → HttpOutcome) :
    (_make_request cfg sha256hex method endpoint data outcomes).sent.length
        ≤ cfg.max_retries + 1 ∧
    (∀ s c, outcomes 0 = .resp s c → s ∉ statusForcelist →
      (_make_request cfg sha256hex method endpoint data outcomes).sent.length = 1) ∧
    (∀ s kvs, outcomes 0 = .resp s (some (.obj kvs)) → s ∉ statusForcelist →
      s ∉ successStatuses →
      ∃ m ec det, (_make_request cfg sha256hex method endpoint data outcomes).result
        = .error (.pawaPayAPIException m s ec det)) ∧
    (∀ s c, outcomes 0 = .resp s c → s ∈ statusForcelist → method ∈ allowedMethods →
      0 < cfg.max_retries →
      2 ≤ (_make_request cfg sha256hex method endpoint data outcomes).sent.length) ∧
    (∀ s kvs, outcomes 0 = .resp s (some (.obj kvs)) → s ∈ statusForcelist →
      method ∉ allowedMethods →
      (_make_request cfg sha256hex method endpoint data outcomes).sent.length = 1 ∧
      ∃ m ec det, (_make_request cfg sha256hex method endpoint data outcomes).result
        = .error (.pawaPayAPIException m s ec det)) ∧
    (_make_request cfg sha256hex method endpoint data outcomes).sleeps
      = (List.range ((_make_request cfg sha256hex method endpoint data outcomes).sent.length - 1)).map
          (fun j => backoffTime (j + 1)) := by
  refine ⟨?_, ?_, ?_, ?_, ?_, ?_⟩
  · show (List.replicate (retryLoop method outcomes 0 cfg.max_retries).2 _).length ≤ _
    rw [List.length_replicate]
    exact retryLoop_attempts_le method outcomes 0 cfg.max_retries
  · intro s c h0 hs
    show (List.replicate (retryLoop method outcomes 0 cfg.max_retries).2 _).length = 1
    rw [retryLoop_resp_pass h0 (fun hg => hs hg.2)]
    rfl
  · intro s kvs h0 hs hns
    refine ⟨"API Error: " ++ pyStr (PawaPayError.from_dict kvs).error_message,
      (PawaPayError.from_dict kvs).error_code,
      pyOr (PawaPayError.from_dict kvs).details (.obj []), ?_⟩
    unfold _make_request
    rw [retryLoop_resp_pass h0 (fun hg => hs hg.2)]
    simp [hns]
  · intro s c h0 hs hm hpos
    obtain ⟨m, hmr⟩ : ∃ m, cfg.max_retries = m + 1 := ⟨cfg.max_retries - 1, by omega⟩
    show (List.replicate (retryLoop method outcomes 0 cfg.max_retries).2 _).length ≥ 2
    rw [List.length_replicate, hmr]
    exact retryLoop_transient_retries h0 hm hs m
  · intro s kvs h0 hs hm
    constructor
    · show (List.replicate (retryLoop method outcomes 0 cfg.max_retries).2 _).length = 1
      rw [retryLoop_post_not_status_retried h0 hm]
      rfl
    · refine ⟨"API Error: " ++ pyStr (PawaPayError.from_dict kvs).error_message,
        (PawaPayError.from_dict kvs).error_code,
        pyOr (PawaPayError.from_dict kvs).details (.obj []), ?_⟩
      unfold _make_request
      rw [retryLoop_post_not_status_retried h0 hm]
      simp [forcelist_not_success hs]
  · show (List.range ((retryLoop method outcomes 0 cfg.max_retries).2 - 1)).map _
      = (List.range ((List.replicate (retryLoop method outcomes 0 cfg.max_retries).2 _).length - 1)).map _
    rw [List.length_replicate]

/-- Witness for C4 (amended): a GET 404 fails on the single first attempt
with the API error; a persistent GET 500 is retried (≥ 2 attempts) with
backoff sleeps `[0, 2, 4]`; a persistent POST 500 makes exactly one attempt
and yields the API error. -/
theorem transport_retry_policy_witness :
    (_make_request cfgW shaW "GET" "/x" none (fun _ => .resp 404 (some (.obj [])))).sent.length
        = 1 ∧
    (∃ m ec det,
      (_make_request cfgW shaW "GET" "/x" none (fun _ => .resp 404 (some (.obj [])))).result
        = .error (.pawaPayAPIException m 404 ec det)) ∧
    2 ≤ (_make_request cfgW shaW "GET" "/x" none (fun _ => .resp 500 (some (.obj [])))).sent.length ∧
    ((_make_request cfgW shaW "POST" "/x" none (fun _ => .resp 500 (some (.obj [])))).sent.length = 1 ∧
      ∃ m ec det,
        (_make_request cfgW shaW "POST" "/x" none (fun _ => .resp 500 (some (.obj [])))).result
          = .error (.pawaPayAPIException m 500 ec det)) ∧
    (_make_request cfgW shaW "GET" "/x" none (fun _ => .resp 500 (some (.obj [])))).sleeps
      = [0, 2, 4] :=
  ⟨(transport_retry_policy cfgW shaW "GET" "/x" none _).2.1 404 _ rfl (by decide),
   (transport_retry_policy cfgW shaW "GET" "/x" none _).2.2.1 404 [] rfl (by decide) (by decide),
   (transport_retry_policy cfgW shaW "GET" "/x" none _).2.2.2.1 500 _ rfl (by decide) (by decide)
     (by decide),
   (transport_retry_policy cfgW shaW "POST" "/x" none _).2.2.2.2.1 500 [] rfl (by decide)
     (by decide),
   by rfl⟩

/-- C1: when the provider answers a 2xx envelope whose business `status`
field is `"REJECTED"`, `request_deposit` and `request_payout` raise the
rejection `ValueError` (the spec's `TransactionRejectedError`) whose message
interpolates, verbatim, the `rejectionCode` and `rejectionMessage` extracted
from the nested `rejectionReason` object — they neither return a response
nor raise the HTTP-level `PawaPayAPIException`. -/
theorem rejected_status_raises_rejection_error (cfg : PawaPayConfig)
    (sha256hex : String → String) (fromiso : String → Option PyDateTime)
    (freshId nowIso amount currency country phone : String)
    (corr sd : Option String) (cj : Json)
    (predictO depositO payoutO : Nat → HttpOutcome)
    (kvs rkvs : List (String × Json)) (st : Nat) (code msg : String)
    (hres : resolve_correspondent cfg sha256hex phone corr predictO = .ok cj)
    (hst : st ∈ successStatuses)
    (hD : depositO 0 = .resp st (some (.obj kvs)))
    (hP : payoutO 0 = .resp st (some (.obj kvs)))
    (hstat : jget kvs "status" = some (.str "REJECTED"))
    (hrr : jget kvs "rejectionReason" = some (.obj rkvs))
    (hcode : jget rkvs "rejectionCode" = some (.str code))
    (hmsg : jget rkvs "rejectionMessage" = some (.str msg)) :
    (request_deposit cfg sha256hex fromiso freshId nowIso amount currency phone corr sd
        predictO depositO).result
      = .error (.valueError
          ("Deposit was rejected." ++ "Code: " ++ code ++ ", " ++ "Message: " ++ msg)) ∧
    (request_payout cfg sha256hex fromiso freshId nowIso amount currency country phone corr sd
        predictO payoutO).result
      = .error (.valueError
          ("Payout was rejected." ++ "Code: " ++ code ++ ", " ++ "Message: " ++ msg)) := by
  simp [request_deposit, request_payout, hres, make_request_ok hD hst,
    make_request_ok hP hst, isRejectedValue, pyGet, pyGetD, hstat, hrr, hcode, hmsg, pyStr]

/-- A rejection body used by the C1 witness. -/
def rejReasonW : List (String × Json) :=
  [("rejectionCode", .str "AMOUNT_TOO_SMALL"), ("rejectionMessage", .str "below minimum")]

/-- A rejected-transaction response body used by the C1 witness. -/
def rejKvsW : List (String × Json) :=
  [("status", .str "REJECTED"), ("rejectionReason", .obj rejReasonW)]

/-- Witness for C1 at a concrete rejected deposit and payout. -/
theorem rejected_status_raises_rejection_error_witness :
    (request_deposit cfgW shaW isoW "id-1" "2024-01-01T00:00:00" "10.00" "KES" "254700000001"
        (some "MTN_MOMO_KEN") none (fun _ => .netFail "unused")
        (fun _ => .resp 200 (some (.obj rejKvsW)))).result
      = .error (.valueError
          ("Deposit was rejected." ++ "Code: " ++ "AMOUNT_TOO_SMALL" ++ ", " ++
            "Message: " ++ "below minimum")) ∧
    (request_payout cfgW shaW isoW "id-1" "2024-01-01T00:00:00" "10.00" "KES" "KEN" "254700000001"
        (some "MTN_MOMO_KEN") none (fun _ => .netFail "unused")
        (fun _ => .resp 200 (some (.obj rejKvsW)))).result
      = .error (.valueError
          ("Payout was rejected." ++ "Code: " ++ "AMOUNT_TOO_SMALL" ++ ", " ++
            "Message: " ++ "below minimum")) :=
  rejected_status_raises_rejection_error cfgW shaW isoW "id-1" "2024-01-01T00:00:00"
    "10.00" "KES" "KEN" "254700000001" (some "MTN_MOMO_KEN") none (.str "MTN_MOMO_KEN")
    (fun _ => .netFail "unused")
    (fun _ => .resp 200 (some (.obj rejKvsW)))
    (fun _ => .resp 200 (some (.obj rejKvsW)))
    rejKvsW rejReasonW 200 "AMOUNT_TOO_SMALL" "below minimum"
    rfl (by decide) rfl rfl rfl rfl rfl rfl

/-- Every attempt of a bodied `_make_request` call re-sends the one body
serialized before the wire loop started, and at least one attempt is made. -/
theorem make_request_body_spec (cfg : PawaPayConfig) (sha256hex : String → String)
    (method endpoint : String) (d : Json) (outcomes : Nat → HttpOutcome)
    (hd : d.truthy = true) :
    (_make_request cfg sha256hex method endpoint (some d) outcomes).sent ≠ [] ∧
    ∀ r ∈ (_make_request cfg sha256hex method endpoint (some d) outcomes).sent,
      r.body = some (dumps d) := by
  constructor
  · have hpos := retryLoop_attempts_pos method outcomes 0 cfg.max_retries
    intro hnil
    have hlen := congrArg List.length hnil
    unfold _make_request at hlen
    simp [hd] at hlen
    omega
  · intro r hr
    unfold _make_request at hr
    simp only [hd, if_true] at hr
    rw [List.eq_of_mem_replicate hr]

/-- C3: each of `request_deposit` / `request_payout` generates its
idempotency identifier (`uuid.uuid4()` at client.py:160/220) once, before the
network call, places it in the serialized HTTP body (`depositId` /
`payoutId`), and every adapter-level retry attempt of that one logical call
re-sends exactly that body, so the identifier is identical across attempts
and is never regenerated on retry. -/
theorem idempotency_id_constant_across_retries (cfg : PawaPayConfig)
    (sha256hex : String → String) (fromiso : String → Option PyDateTime)
    (freshId nowIso amount currency country phone : String)
    (corr sd : Option String) (cj : Json)
    (predictO depositO payoutO : Nat → HttpOutcome)
    (hres : resolve_correspondent cfg sha256hex phone corr predictO = .ok cj) :
    (∃ log : CallLog,
      (request_deposit cfg sha256hex fromiso freshId nowIso amount currency phone corr sd
          predictO depositO).depositLog = some log ∧
      log.sent ≠ [] ∧
      ∃ bodyDict : List (String × Json),
        jget bodyDict "depositId" = some (.str freshId) ∧
        ∀ r ∈ log.sent, r.body = some (dumps (.obj bodyDict))) ∧
    (∃ log : CallLog,
      (request_payout cfg sha256hex fromiso freshId nowIso amount currency country phone corr sd
          predictO payoutO).payoutLog = some log ∧
      log.sent ≠ [] ∧
      ∃ bodyDict : List (String × Json),
        jget bodyDict "payoutId" = some (.str freshId) ∧
        ∀ r ∈ log.sent, r.body = some (dumps (.obj bodyDict))) := by
  unfold request_deposit request_payout
  simp only [hres]
  constructor
  · have hspec := make_request_body_spec cfg sha256hex "POST" "/deposits"
      (.obj (DepositRequest.to_dict
        { deposit_id := freshId, amount := amount, currency := currency, correspondent := cj,
          payer := { type := "MSISDN", address := [("value", .str phone)] },
          customer_timestamp := nowIso ++ "Z", statement_description := sd })) depositO
      (by cases sd <;> simp [DepositRequest.to_dict, Json.truthy])
    exact ⟨_, rfl, hspec.1,
      DepositRequest.to_dict
        { deposit_id := freshId, amount := amount, currency := currency, correspondent := cj,
          payer := { type := "MSISDN", address := [("value", .str phone)] },
          customer_timestamp := nowIso ++ "Z", statement_description := sd },
      by simp [DepositRequest.to_dict, jget], hspec.2⟩
  · have hspec := make_request_body_spec cfg sha256hex "POST" "/payouts"
      (.obj (PayoutRequest.to_dict
        { payout_id := freshId, amount := amount, country := country, currency := currency,
          correspondent := cj, recipient := { type := "MSISDN", value := phone },
          customer_timestamp := nowIso ++ "Z", statement_description := sd })) payoutO
      (by cases sd <;> simp [PayoutRequest.to_dict, Json.truthy])
    exact ⟨_, rfl, hspec.1,
      PayoutRequest.to_dict
        { payout_id := freshId, amount := amount, country := country, currency := currency,
          correspondent := cj, recipient := { type := "MSISDN", value := phone },
          customer_timestamp := nowIso ++ "Z", statement_description := sd },
      by simp [PayoutRequest.to_dict, jget], hspec.2⟩

/-- Witness for C3: one concrete deposit and payout, under a persistently
transient wire that forces every retry to happen. -/
theorem idempotency_id_constant_across_retries_witness :
    (∃ log : CallLog,
      (request_deposit cfgW shaW isoW "uuid-77" "2024-01-01T00:00:00" "12.50" "KES"
          "254700000001" (some "MTN_MOMO_KEN") none (fun _ => .netFail "unused")
          (fun _ => .resp 503 (some (.obj [])))).depositLog = some log ∧
      log.sent ≠ [] ∧
      ∃ bodyDict : List (String × Json),
        jget bodyDict "depositId" = some (.str "uuid-77") ∧
        ∀ r ∈ log.sent, r.body = some (dumps (.obj bodyDict))) ∧
    (∃ log : CallLog,
      (request_payout cfgW shaW isoW "uuid-77" "2024-01-01T00:00:00" "12.50" "KES" "KEN"
          "254700000001" (some "MTN_MOMO_KEN") none (fun _ => .netFail "unused")
          (fun _ => .resp 503 (some (.obj [])))).payoutLog = some log ∧
      log.sent ≠ [] ∧
      ∃ bodyDict : List (String × Json),
        jget bodyDict "payoutId" = some (.str "uuid-77") ∧
        ∀ r ∈ log.sent, r.body = some (dumps (.obj bodyDict))) :=
  idempotency_id_constant_across_retries cfgW shaW isoW "uuid-77" "2024-01-01T00:00:00"
    "12.50" "KES" "KEN" "254700000001" (some "MTN_MOMO_KEN") none (.str "MTN_MOMO_KEN")
    (fun _ => .netFail "unused") (fun _ => .resp 503 (some (.obj [])))
    (fun _ => .resp 503 (some (.obj []))) rfl

/-- Counterexample to C7: when the prediction endpoint is unreachable (a
connection-level `requests` exception on every attempt), the
`PawaPayException` that `_make_request` raises is not caught by the
`except PawaPayAPIException` handler in `predict_correspondent`, so it
propagates to the caller instead of becoming the `None` result. -/
theorem predict_correspondent_netfail_propagates :
    predict_correspondent cfgW shaW "254700000001" (fun _ => .netFail "connection refused")
      = .error (.pawaPayException ("Request failed: " ++ "connection refused")) ∧
    predict_correspondent cfgW shaW "254700000001" (fun _ => .netFail "connection refused")
      ≠ .ok .null := by
  refine ⟨rfl, ?_⟩
  intro h
  rw [show predict_correspondent cfgW shaW "254700000001"
        (fun _ => .netFail "connection refused")
      = .error (.pawaPayException ("Request failed: " ++ "connection refused")) from rfl] at h
  exact Except.noConfusion h

/-- C7 amended: any non-2xx HTTP response from the prediction endpoint —
transient statuses included, since the prediction call is a POST and urllib3
never status-retries POST — is treated as "no correspondent could be
determined" (`None`, via the caught `PawaPayAPIException`); but when the
endpoint is unreachable at the connection level, the resulting
`PawaPayException` is not caught and propagates to the caller instead of
becoming `None`. -/
theorem predict_correspondent_soft_fail_scope (cfg : PawaPayConfig)
    (sha256hex : String → String) (msisdn : String) :
    (∀ (outcomes : Nat → HttpOutcome) (s : Nat) (kvs : List (String × Json)),
      outcomes 0 = .resp s (some (.obj kvs)) → s ∉ successStatuses →
      predict_correspondent cfg sha256hex msisdn outcomes = .ok .null) ∧
    (∀ msg : String,
      predict_correspondent cfg sha256hex msisdn (fun _ => .netFail msg)
        = .error (.pawaPayException ("Request failed: " ++ msg))) := by
  refine ⟨fun outcomes s kvs h0 hns => predict_soft_null h0 hns, ?_⟩
  intro msg
  unfold predict_correspondent _make_request
  rw [retryLoop_netFail_exhausts]

/-- Witness for C7 (amended): a 404 and a (never-retried) 500 prediction
response both yield `None`; an unreachable endpoint propagates the error. -/
theorem predict_correspondent_soft_fail_scope_witness :
    predict_correspondent cfgW shaW "254700000001" (fun _ => .resp 404 (some (.obj [])))
      = .ok .null ∧
    predict_correspondent cfgW shaW "254700000001" (fun _ => .resp 500 (some (.obj [])))
      = .ok .null ∧
    predict_correspondent cfgW shaW "254700000001" (fun _ => .netFail "boom")
      = .error (.pawaPayException ("Request failed: " ++ "boom")) :=
  ⟨(predict_correspondent_soft_fail_scope cfgW shaW "254700000001").1 _ 404 [] rfl (by decide),
   (predict_correspondent_soft_fail_scope cfgW shaW "254700000001").1 _ 500 [] rfl (by decide),
   (predict_correspondent_soft_fail_scope cfgW shaW "254700000001").2 "boom"⟩

/-- C10: a structurally successful (2xx) prediction response whose body has
no `correspondent` field, or a null one, makes `predict_correspondent`
return `None` without raising — indistinguishable from the caught
prediction-API-error case — and `request_deposit` / `request_payout` invoked
without an explicit correspondent then raise the same
`PawaPayException("Could not predict correspondent for phone number")` they
raise when the prediction endpoint rejects the request outright. -/
theorem missing_predicted_correspondent_is_resolution_error (cfg : PawaPayConfig)
    (sha256hex : String → String) (fromiso : String → Option PyDateTime)
    (freshId nowIso amount currency country phone : String) (sd : Option String)
    (kvs : List (String × Json)) (predictO depositO payoutO : Nat → HttpOutcome)
    (h200 : predictO 0 = .resp 200 (some (.obj kvs)))
    (hcorr : jget kvs "correspondent" = none ∨ jget kvs "correspondent" = some .null) :
    predict_correspondent cfg sha256hex phone predictO = .ok .null ∧
    (request_deposit cfg sha256hex fromiso freshId nowIso amount currency phone none sd
        predictO depositO).result
      = .error (.pawaPayException "Could not predict correspondent for phone number") ∧
    (request_payout cfg sha256hex fromiso freshId nowIso amount currency country phone none sd
        predictO payoutO).result
      = .error (.pawaPayException "Could not predict correspondent for phone number") ∧
    (∀ (predictO' : Nat → HttpOutcome) (s : Nat) (kvs' : List (String × Json)),
      predictO' 0 = .resp s (some (.obj kvs')) → s ∉ statusForcelist → s ∉ successStatuses →
      (request_deposit cfg sha256hex fromiso freshId nowIso amount currency phone none sd
          predictO' depositO).result
        = .error (.pawaPayException "Could not predict correspondent for phone number")) := by
  have hnull : pyGet kvs "correspondent" = .null := by
    rcases hcorr with h | h <;> simp [pyGet, h]
  have hpred : predict_correspondent cfg sha256hex phone predictO = .ok .null := by
    rw [predict_ok_get h200 (by decide), hnull]
  have hres : resolve_correspondent cfg sha256hex phone none predictO
      = .error (.pawaPayException "Could not predict correspondent for phone number") := by
    unfold resolve_correspondent
    rw [hpred]
    simp [Json.truthy]
  refine ⟨hpred, ?_, ?_, ?_⟩
  · unfold request_deposit
    rw [hres]
  · unfold request_payout
    rw [hres]
  · intro predictO' s kvs' h0 _hs hns
    have hres' : resolve_correspondent cfg sha256hex phone none predictO'
        = .error (.pawaPayException "Could not predict correspondent for phone number") := by
      unfold resolve_correspondent
      rw [predict_soft_null h0 hns]
      simp [Json.truthy]
    unfold request_deposit
    rw [hres']

/-- Witness for C10: a 2xx prediction response `{}` (no correspondent key),
and the 404-rejection comparison case. -/
theorem missing_predicted_correspondent_is_resolution_error_witness :
    predict_correspondent cfgW shaW "254700000001" (fun _ => .resp 200 (some (.obj [])))
      = .ok .null ∧
    (request_deposit cfgW shaW isoW "u1" "2024-01-01T00:00:00" "5.00" "KES" "254700000001"
        none none (fun _ => .resp 200 (some (.obj []))) (fun _ => .netFail "unused")).result
      = .error (.pawaPayException "Could not predict correspondent for phone number") ∧
    (request_deposit cfgW shaW isoW "u1" "2024-01-01T00:00:00" "5.00" "KES" "254700000001"
        none none (fun _ => .resp 404 (some (.obj []))) (fun _ => .netFail "unused")).result
      = .error (.pawaPayException "Could not predict correspondent for phone number") :=
  have h := missing_predicted_correspondent_is_resolution_error cfgW shaW isoW "u1"
    "2024-01-01T00:00:00" "5.00" "KES" "KEN" "254700000001" none []
    (fun _ => .resp 200 (some (.obj []))) (fun _ => .netFail "unused")
    (fun _ => .netFail "unused") rfl (Or.inl rfl)
  ⟨h.1, h.2.1, h.2.2.2 (fun _ => .resp 404 (some (.obj []))) 404 [] rfl
    (by decide) (by decide)⟩

/-- Parsing the deposit response after `request_deposit` writes the
caller-supplied amount, currency, correspondent and payer back into the
response dict: the parsed fields are exactly the written-back values, with
the remaining required fields read from the original response. -/
theorem deposit_writeback_parse {fromiso : String → Option PyDateTime}
    {kvs : List (String × Json)} (amount currency phone : String) (cj : Json)
    {sv cs : String} {st : TransactionStatus} {did : Json} {dt : PyDateTime}
    (hstat : jget kvs "status" = some (.str sv))
    (hst : TransactionStatus.ofValue? sv = some st)
    (hdid : jget kvs "depositId" = some did)
    (hcreated : jget kvs "created" = some (.str cs))
    (hiso : fromiso (cs.replace "Z" "+00:00") = some dt) :
    ∃ r : DepositResponse,
      DepositResponse.from_dict fromiso
        (.obj (jset (jset (jset (jset kvs "amount" (.str amount)) "currency" (.str currency))
          "correspondent" cj) "payer"
          (Payer.to_dict { type := "MSISDN", address := [("value", .str phone)] })))
      = .ok r ∧
      r.amount = .str amount ∧ r.currency = .str currency ∧ r.correspondent = cj ∧
      r.payer = Payer.to_dict { type := "MSISDN", address := [("value", .str phone)] } ∧
      r.status = st ∧ r.deposit_id = did ∧ r.created = dt := by
  have g_status : jget (jset (jset (jset (jset kvs "amount" (.str amount)) "currency"
      (.str currency)) "correspondent" cj) "payer"
      (Payer.to_dict { type := "MSISDN", address := [("value", .str phone)] })) "status"
      = some (.str sv) := by
    rw [jget_jset_other _ "payer" "status" _ (by decide),
        jget_jset_other _ "correspondent" "status" _ (by decide),
        jget_jset_other _ "currency" "status" _ (by decide),
        jget_jset_other _ "amount" "status" _ (by decide), hstat]
  have g_amount : jget (jset (jset (jset (jset kvs "amount" (.str amount)) "currency"
      (.str currency)) "correspondent" cj) "payer"
      (Payer.to_dict { type := "MSISDN", address := [("value", .str phone)] })) "amount"
      = some (.str amount) := by
    rw [jget_jset_other _ "payer" "amount" _ (by decide),
        jget_jset_other _ "correspondent" "amount" _ (by decide),
        jget_jset_other _ "currency" "amount" _ (by decide), jget_jset_same]
  have g_currency : jget (jset (jset (jset (jset kvs "amount" (.str amount)) "currency"
      (.str currency)) "correspondent" cj) "payer"
      (Payer.to_dict { type := "MSISDN", address := [("value", .str phone)] })) "currency"
      = some (.str currency) := by
    rw [jget_jset_other _ "payer" "currency" _ (by decide),
        jget_jset_other _ "correspondent" "currency" _ (by decide), jget_jset_same]
  have g_corr : jget (jset (jset (jset (jset kvs "amount" (.str amount)) "currency"
      (.str currency)) "correspondent" cj) "payer"
      (Payer.to_dict { type := "MSISDN", address := [("value", .str phone)] })) "correspondent"
      = some cj := by
    rw [jget_jset_other _ "payer" "correspondent" _ (by decide), jget_jset_same]
  have g_payer : jget (jset (jset (jset (jset kvs "amount" (.str amount)) "currency"
      (.str currency)) "correspondent" cj) "payer"
      (Payer.to_dict { type := "MSISDN", address := [("value", .str phone)] })) "payer"
      = some (Payer.to_dict { type := "MSISDN", address := [("value", .str phone)] }) := by
    rw [jget_jset_same]
  have g_created : jget (jset (jset (jset (jset kvs "amount" (.str amount)) "currency"
      (.str currency)) "correspondent" cj) "payer"
      (Payer.to_dict { type := "MSISDN", address := [("value", .str phone)] })) "created"
      = some (.str cs) := by
    rw [jget_jset_other _ "payer" "created" _ (by decide),
        jget_jset_other _ "correspondent" "created" _ (by decide),
        jget_jset_other _ "currency" "created" _ (by decide),
        jget_jset_other _ "amount" "created" _ (by decide), hcreated]
  have g_depid : jget (jset (jset (jset (jset kvs "amount" (.str amount)) "currency"
      (.str currency)) "correspondent" cj) "payer"
      (Payer.to_dict { type := "MSISDN", address := [("value", .str phone)] })) "depositId"
      = some did := by
    rw [jget_jset_other _ "payer" "depositId" _ (by decide),
        jget_jset_other _ "correspondent" "depositId" _ (by decide),
        jget_jset_other _ "currency" "depositId" _ (by decide),
        jget_jset_other _ "amount" "depositId" _ (by decide), hdid]
  unfold DepositResponse.from_dict TransactionResponse.from_dict
  simp only [g_status, hst, g_amount, g_currency, g_corr, g_payer, g_created, g_depid,
    hiso, pyGetD, Option.getD, pure_bind]
  exact ⟨_, rfl, rfl, rfl, rfl, rfl, rfl, rfl, rfl⟩

/-- C6: for a valid deposit input with an explicit correspondent, building
the request, serializing it into the HTTP body, and mapping a synthetic
non-rejection 2xx response back yields a `DepositResponse` whose amount,
currency, correspondent and payer equal the caller-supplied inputs exactly —
the amount decimal string is carried through as the very same string, never
renormalized — and the serialized request body itself carries those same
input strings. -/
theorem deposit_round_trip_preserves_inputs (cfg : PawaPayConfig)
    (sha256hex : String → String) (fromiso : String → Option PyDateTime)
    (freshId nowIso amount currency phone corr : String) (sd : Option String)
    (sv cs : String) (st : TransactionStatus) (did : Json) (dt : PyDateTime)
    (kvs : List (String × Json)) (predictO depositO : Nat → HttpOutcome)
    (hc : corr ≠ "")
    (hD : depositO 0 = .resp 200 (some (.obj kvs)))
    (hstat : jget kvs "status" = some (.str sv))
    (hst : TransactionStatus.ofValue? sv = some st)
    (hnr : sv ≠ "REJECTED")
    (hdid : jget kvs "depositId" = some did)
    (hcreated : jget kvs "created" = some (.str cs))
    (hiso : fromiso (cs.replace "Z" "+00:00") = some dt) :
    (∃ r : DepositResponse,
      (request_deposit cfg sha256hex fromiso freshId nowIso amount currency phone (some corr) sd
          predictO depositO).result = .ok r ∧
      r.amount = .str amount ∧ r.currency = .str currency ∧
      r.correspondent = .str corr ∧
      r.payer = Payer.to_dict { type := "MSISDN", address := [("value", .str phone)] } ∧
      r.status = st) ∧
    (∃ (log : CallLog) (bodyDict : List (String × Json)),
      (request_deposit cfg sha256hex fromiso freshId nowIso amount currency phone (some corr) sd
          predictO depositO).depositLog = some log ∧
      jget bodyDict "amount" = some (.str amount) ∧
      jget bodyDict "currency" = some (.str currency) ∧
      jget bodyDict "correspondent" = some (.str corr) ∧
      ∀ rq ∈ log.sent, rq.body = some (dumps (.obj bodyDict))) := by
  have hres : resolve_correspondent cfg sha256hex phone (some corr) predictO
      = .ok (.str corr) := by
    unfold resolve_correspondent
    simp [Json.truthy, hc]
  have hnotrej : isRejectedValue (pyGet kvs "status") = false := by
    simp [pyGet, hstat, isRejectedValue, hnr]
  obtain ⟨r, hr, hra, hrc, hrcorr, hrp, hrs, _, _⟩ :=
    deposit_writeback_parse amount currency phone (.str corr) hstat hst hdid hcreated hiso
  constructor
  · refine ⟨r, ?_, hra, hrc, hrcorr, hrp, hrs⟩
    unfold request_deposit
    simp only [hres, make_request_ok hD (by decide), hnotrej, Bool.false_eq_true, if_false]
    exact hr
  · have hspec := make_request_body_spec cfg sha256hex "POST" "/deposits"
      (.obj (DepositRequest.to_dict
        { deposit_id := freshId, amount := amount, currency := currency,
          correspondent := .str corr,
          payer := { type := "MSISDN", address := [("value", .str phone)] },
          customer_timestamp := nowIso ++ "Z", statement_description := sd })) depositO
      (by cases sd <;> simp [DepositRequest.to_dict, Json.truthy])
    refine ⟨_, DepositRequest.to_dict
        { deposit_id := freshId, amount := amount, currency := currency,
          correspondent := .str corr,
          payer := { type := "MSISDN", address := [("value", .str phone)] },
          customer_timestamp := nowIso ++ "Z", statement_description := sd },
      ?_, ?_, ?_, ?_, hspec.2⟩
    · unfold request_deposit
      simp only [hres]
    · simp [DepositRequest.to_dict, jget]
    · simp [DepositRequest.to_dict, jget]
    · simp [DepositRequest.to_dict, jget]

/-- Witness for C6: amount `"100.00"`, currency `"KES"`, phone
`"254700000001"`, correspondent `"MTN_MOMO_KEN"`, and a synthetic ACCEPTED
response. -/
theorem deposit_round_trip_preserves_inputs_witness :
    ∃ r : DepositResponse,
      (request_deposit cfgW shaW isoW "uuid-9" "2024-01-01T00:00:00" "100.00" "KES"
          "254700000001" (some "MTN_MOMO_KEN") none (fun _ => .netFail "unused")
          (fun _ => .resp 200 (some (.obj
            [("depositId", .str "uuid-9"), ("status", .str "ACCEPTED"),
             ("created", .str "2024-01-01T00:00:05Z")])))).result = .ok r ∧
      r.amount = .str "100.00" ∧ r.currency = .str "KES" ∧
      r.correspondent = .str "MTN_MOMO_KEN" ∧
      r.payer = Payer.to_dict { type := "MSISDN", address := [("value", .str "254700000001")] } ∧
      r.status = .ACCEPTED :=
  (deposit_round_trip_preserves_inputs cfgW shaW isoW "uuid-9" "2024-01-01T00:00:00"
    "100.00" "KES" "254700000001" "MTN_MOMO_KEN" none "ACCEPTED"
    "2024-01-01T00:00:05Z" .ACCEPTED (.str "uuid-9")
    { iso := "2024-01-01T00:00:05Z".replace "Z" "+00:00" }
    [("depositId", .str "uuid-9"), ("status", .str "ACCEPTED"),
     ("created", .str "2024-01-01T00:00:05Z")]
    (fun _ => .netFail "unused")
    (fun _ => .resp 200 (some (.obj
      [("depositId", .str "uuid-9"), ("status", .str "ACCEPTED"),
       ("created", .str "2024-01-01T00:00:05Z")])))
    (by decide) rfl rfl rfl (by decide) rfl rfl rfl).1

end PawaPay
